import Mathlib

/-! Verification of the TCP keepalive offload example
(tcp_keepalive_offload.c): a shallow embedding of the descriptor
lookup, the connection establisher, the Wi-Fi association client and
the network idle task, together with theorems about their behaviour.

External collaborators (socket subsystem, Wi-Fi connection manager,
offload configuration provider, suspend subsystem) are modelled as
environments supplying their observable results; global mutable
state (the connection table, the recorded IP address) is threaded
explicitly.
-/

/-- cy_rslt_t is a 32-bit unsigned result code. -/
abbrev CyRslt := Nat

/-- CY_RSLT_SUCCESS from cy_result.h. -/
def CY_RSLT_SUCCESS : CyRslt := 0

/-- CY_RSLT_TYPE_ERROR from cy_result.h (result-type field value 2). -/
def CY_RSLT_TYPE_ERROR : CyRslt := 2

/-- The string literal TCP_KEEPALIVE_OFFLOAD = "TKO" from
tcp_keepalive_offload.c, as a character list (C string without the
terminating NUL). -/
def TCP_KEEPALIVE_OFFLOAD : List Char := String.toList "TKO"

/-- Modelled from the spec: NULL_IP_ADDRESS, the sentinel
"no address" string that marks an unused remote IP in a port binding.
Its definition lives in app_config.h, which is not part of src/; the
spec only requires it to be a fixed sentinel value compared against
remote_ip. -/
def NULL_IP_ADDRESS : List Char := String.toList "0.0.0.0"

/-- One cy_tko_ol_connect_t entry of the keepalive policy blob:
remote IP (a C string), remote port and local port (uint16 values,
modelled as Nat since only comparison with 0 matters here). -/
structure CyTkoOlConnect where
  remote_ip : List Char
  remote_port : Nat
  local_port : Nat

/-- The cy_tko_ol_cfg_t policy blob: the ports array, indexed
0..MAX_TKO-1.  Modelled as a total function on slot indices; the
establisher only reads indices below MAX_TKO. -/
structure CyTkoOlCfg where
  ports : Nat → CyTkoOlConnect

/-- One ol_desc_t entry of the offload descriptor list.  A NULL name
(the list's terminating sentinel) is modelled by none; a NULL cfg
pointer (absent policy blob) is modelled by none. -/
structure OlDesc where
  name : Option (List Char)
  cfg : Option CyTkoOlCfg

/-- find_my_tko_descriptor from tcp_keepalive_offload.c: walk the
descriptor list obtained from get_default_ol_list while the current
entry exists, has a non-NULL name, and strncmp(entry name, name,
strlen(name)) is nonzero; afterwards, a NULL list position or a NULL
name yields NULL (modelled none), otherwise the entry found.
strncmp over strlen(name) characters succeeds exactly when name is a
prefix of the stored name.  The list argument models the memory the
descriptor pointer walks: an empty list is a NULL base pointer or the
end of the represented memory. -/
def find_my_tko_descriptor (name : List Char) : List OlDesc → Option OlDesc
  | [] => none
  | d :: rest =>
    match d.name with
    | none => none
    | some nm =>
      if name.isPrefixOf nm then some d else find_my_tko_descriptor name rest

/-- Spec-side matching predicate for the descriptor lookup, written
from the words of the spec: a descriptor matches the search name when
its name is non-NULL and the search name is a prefix of it
(prefix-style comparison over the search name's length). -/
def specDescMatches (name : List Char) (d : OlDesc) : Bool :=
  match d.name with
  | none => false
  | some nm => name.isPrefixOf nm

/-- Spec-side reference lookup, written from the words of the spec:
scan only the region of the list before the terminating NULL-name
sentinel, and return the first descriptor there whose name matches
prefix-style; otherwise not-found. -/
def specFirstMatch (name : List Char) (l : List OlDesc) : Option OlDesc :=
  (l.takeWhile (fun d => d.name.isSome)).find? (specDescMatches name)

/-- An opaque socket handle (struct cy_socket_ctx_t pointer),
identified abstractly. -/
abbrev SocketHandle := Nat

/-- The environment of external collaborators read by
tcp_socket_connection_start: the result of cy_socket_init, the
descriptor list returned by get_default_ol_list, and per slot index
the result and (on success) the handle produced by
cy_tcp_create_socket_connection. -/
structure SocketEnv where
  socket_init_result : CyRslt
  ol_list : List OlDesc
  connect_result : Nat → CyRslt
  connect_handle : Nat → SocketHandle

/-- Whether a port binding is attempted by the establisher loop:
the C condition remote_port > 0 AND local_port > 0 AND
strcmp(remote_ip, NULL_IP_ADDRESS) != 0. -/
def portActive (p : CyTkoOlConnect) : Bool :=
  decide (p.remote_port > 0) && decide (p.local_port > 0) &&
    decide (p.remote_ip ≠ NULL_IP_ADDRESS)

/-- One iteration of the for loop of tcp_socket_connection_start at
slot index: state is (socket_connection_status, global_socket table,
list of indices at which cy_tcp_create_socket_connection was called,
in call order).  An active binding is attempted: on failure the
status is overwritten with the failing result, on success the handle
is stored at the same index; an inactive binding is skipped. -/
def connStep (env : SocketEnv) (cfg : CyTkoOlCfg)
    (st : CyRslt × (Nat → Option SocketHandle) × List Nat) (index : Nat) :
    CyRslt × (Nat → Option SocketHandle) × List Nat :=
  let port := cfg.ports index
  if portActive port then
    let result := env.connect_result index
    if result = CY_RSLT_SUCCESS then
      (st.1,
       fun j => if j = index then some (env.connect_handle index) else st.2.1 j,
       st.2.2 ++ [index])
    else
      (result, st.2.1, st.2.2 ++ [index])
  else
    st

/-- Outcome of tcp_socket_connection_start: either
PRINT_AND_ASSERT fired on a failed cy_socket_init and the function
never returns, or it returns a cy_rslt_t value. -/
inductive TcpOutcome where
  | fatalAbort
  | returns (r : CyRslt)
deriving DecidableEq

/-- Observable result of a run of tcp_socket_connection_start:
its outcome, the global_socket table afterwards, how many times
find_my_tko_descriptor was called, and the slot indices passed to
cy_tcp_create_socket_connection in order. -/
structure TcpStartResult where
  outcome : TcpOutcome
  table : Nat → Option SocketHandle
  lookups : Nat
  attempts : List Nat

/-- tcp_socket_connection_start from tcp_keepalive_offload.c,
parameterised by the compile-time bound MAX_TKO and the initial
global_socket table.  cy_socket_init runs first; on failure
PRINT_AND_ASSERT aborts (modelled from the spec: PRINT_AND_ASSERT is
defined in app_config.h, outside src/, and the spec states that a
socket-init failure aborts immediately with a fatal status).  Then
the TKO descriptor is looked up: not found returns
CY_RSLT_TYPE_ERROR; a NULL cfg sets the status to CY_RSLT_TYPE_ERROR;
otherwise the for loop runs over indices 0..MAX_TKO-1 and the final
socket_connection_status is returned. -/
def tcp_socket_connection_start (env : SocketEnv) (maxTko : Nat)
    (table0 : Nat → Option SocketHandle) : TcpStartResult :=
  if env.socket_init_result = CY_RSLT_SUCCESS then
    match find_my_tko_descriptor TCP_KEEPALIVE_OFFLOAD env.ol_list with
    | none =>
      { outcome := TcpOutcome.returns CY_RSLT_TYPE_ERROR, table := table0,
        lookups := 1, attempts := [] }
    | some desc =>
      match desc.cfg with
      | none =>
        { outcome := TcpOutcome.returns CY_RSLT_TYPE_ERROR, table := table0,
          lookups := 1, attempts := [] }
      | some cfg =>
        let st := (List.range maxTko).foldl (connStep env cfg)
          (CY_RSLT_SUCCESS, table0, [])
        { outcome := TcpOutcome.returns st.1, table := st.2.1,
          lookups := 1, attempts := st.2.2 }
  else
    { outcome := TcpOutcome.fatalAbort, table := table0,
      lookups := 0, attempts := [] }

/-- IP address assigned by the access point (cy_wcm_ip_address_t),
abstract. -/
abbrev IpAddr := Nat

/-- The environment of external collaborators read by wifi_connect:
the result of cy_wcm_init, and for each attempt number k (0-based)
the result of the k-th cy_wcm_connect_ap call and the address it
assigns on success. -/
structure WifiEnv where
  wcm_init_result : CyRslt
  connect_ap_result : Nat → CyRslt
  assigned_ip : Nat → IpAddr

/-- Observable result of a run of wifi_connect: the returned status,
the number of cy_wcm_connect_ap calls performed, and the address
recorded by a successful attempt (none when no attempt succeeded). -/
structure WifiOutcome where
  status : CyRslt
  attempts : Nat
  recorded_ip : Option IpAddr
deriving DecidableEq

/-- The retry for loop of wifi_connect: retry_count runs from k while
below maxRetry; each iteration calls cy_wcm_connect_ap, breaking on
success (recording the assigned address) and overwriting result and
retrying on failure.  Returns the final result, the total number of
attempts performed, and the recorded address. -/
def wifiRetryLoop (env : WifiEnv) (maxRetry : Nat) (k : Nat)
    (result : CyRslt) : CyRslt × Nat × Option IpAddr :=
  if k < maxRetry then
    let r := env.connect_ap_result k
    if r = CY_RSLT_SUCCESS then
      (r, k + 1, some (env.assigned_ip k))
    else
      wifiRetryLoop env maxRetry (k + 1) r
  else
    (result, k, none)
termination_by maxRetry - k
decreasing_by omega

/-- wifi_connect from tcp_keepalive_offload.c, parameterised by the
compile-time bound MAX_WIFI_RETRY_COUNT (defined in app_config.h):
cy_wcm_init runs once; on failure its status is returned with no
association attempt; on success the retry loop runs and its result is
returned. -/
def wifi_connect (env : WifiEnv) (maxRetry : Nat) : WifiOutcome :=
  let result := env.wcm_init_result
  if result = CY_RSLT_SUCCESS then
    let st := wifiRetryLoop env maxRetry 0 result
    { status := st.1, attempts := st.2.1, recorded_ip := st.2.2 }
  else
    { status := result, attempts := 0, recorded_ip := none }

/-- portMAX_DELAY, the FreeRTOS wait-forever tick value. -/
def portMAX_DELAY : Nat := 2 ^ 32 - 1

/-- The timing parameters forwarded by network_idle_task:
NETWORK_INACTIVE_INTERVAL_MS, NETWORK_INACTIVE_WINDOW_MS and
NETWORK_SUSPEND_DELAY_MS (valued in app_config.h, opaque to the
loop). -/
structure IdleParams where
  inactive_interval_ms : Nat
  inactive_window_ms : Nat
  suspend_delay_ms : Nat

/-- Observable actions of the idle task's loop body: the blocking
wait_net_suspend call with its forwarded timing arguments, and the
vTaskDelay settle sleep. -/
inductive IdleEvent where
  | waitNetSuspend (maxWait interval window : Nat)
  | taskDelay (ms : Nat)
deriving DecidableEq

/-- Control position inside the body of the while(true) loop of
network_idle_task: about to call wait_net_suspend, or about to sleep
the settle delay. -/
inductive IdlePhase where
  | suspendWaiting
  | settling
deriving DecidableEq

/-- One execution step of the network_idle_task loop body: from
suspendWaiting it performs the wait_net_suspend call (forwarding
portMAX_DELAY and the two inactivity parameters unchanged) and moves
to settling; from settling it performs the vTaskDelay settle sleep
and moves back to suspendWaiting.  Total: every phase has a
successor, there is no halting phase. -/
def networkIdleStep (p : IdleParams) : IdlePhase → IdlePhase × IdleEvent
  | IdlePhase.suspendWaiting =>
    (IdlePhase.settling,
     IdleEvent.waitNetSuspend portMAX_DELAY p.inactive_interval_ms
       p.inactive_window_ms)
  | IdlePhase.settling =>
    (IdlePhase.suspendWaiting, IdleEvent.taskDelay p.suspend_delay_ms)

/-- The phase network_idle_task is in before its n-th step; the task
enters the loop at suspendWaiting. -/
def idlePhaseAt (p : IdleParams) : Nat → IdlePhase
  | 0 => IdlePhase.suspendWaiting
  | n + 1 => (networkIdleStep p (idlePhaseAt p n)).1

/-- The event network_idle_task performs at its n-th step. -/
def idleEventAt (p : IdleParams) (n : Nat) : IdleEvent :=
  (networkIdleStep p (idlePhaseAt p n)).2

/-- The offload configuration registry read by get_default_ol_list,
as the state visible to find_my_tko_descriptor. -/
structure OlRegistry where
  default_ol_list : List OlDesc

/-- A call to find_my_tko_descriptor together with the registry state
it runs against: the function only reads the registry (and emits a
diagnostic on failure), so the state comes back unchanged. -/
def find_my_tko_descriptor_call (name : List Char) (w : OlRegistry) :
    Option OlDesc × OlRegistry :=
  (find_my_tko_descriptor name w.default_ol_list, w)

/-- A concrete keepalive policy blob used to exercise the theorems:
slot 1 is inactive (sentinel address, zero ports), every other slot
is an active binding. -/
def sampleCfg : CyTkoOlCfg :=
  { ports := fun i =>
      if i = 1 then
        { remote_ip := NULL_IP_ADDRESS, remote_port := 0, local_port := 0 }
      else
        { remote_ip := String.toList "192.168.1.2", remote_port := 3360,
          local_port := 3353 } }

/-- A concrete TKO descriptor carrying sampleCfg. -/
def sampleDesc : OlDesc :=
  { name := some TCP_KEEPALIVE_OFFLOAD, cfg := some sampleCfg }

/-- A concrete socket environment: init succeeds, the descriptor
list holds the TKO descriptor, and the connect attempt at slot 0
fails with code 7 while all others succeed. -/
def sampleSocketEnv : SocketEnv :=
  { socket_init_result := CY_RSLT_SUCCESS, ol_list := [sampleDesc],
    connect_result := fun i => if i = 0 then 7 else CY_RSLT_SUCCESS,
    connect_handle := fun i => i + 100 }

/-- A concrete socket environment whose descriptor list has no TKO
entry (the scan meets another offload then the sentinel). -/
def sampleSocketEnvNoTko : SocketEnv :=
  { socket_init_result := CY_RSLT_SUCCESS,
    ol_list := [{ name := some (String.toList "ARP"), cfg := none },
                { name := none, cfg := none }],
    connect_result := fun _ => CY_RSLT_SUCCESS,
    connect_handle := fun _ => 0 }

/-- A concrete socket environment whose cy_socket_init fails with
code 1. -/
def sampleSocketEnvInitFail : SocketEnv :=
  { socket_init_result := 1, ol_list := [sampleDesc],
    connect_result := fun _ => CY_RSLT_SUCCESS,
    connect_handle := fun _ => 0 }

/-- A concrete Wi-Fi environment: init succeeds, attempt 0 fails
with code 9, attempt 1 succeeds and assigns address 42. -/
def sampleWifiEnvA : WifiEnv :=
  { wcm_init_result := CY_RSLT_SUCCESS,
    connect_ap_result := fun k => if k = 0 then 9 else CY_RSLT_SUCCESS,
    assigned_ip := fun _ => 42 }

/-- A concrete Wi-Fi environment whose every association attempt k
fails with code k + 3. -/
def sampleWifiEnvB : WifiEnv :=
  { wcm_init_result := CY_RSLT_SUCCESS,
    connect_ap_result := fun k => k + 3,
    assigned_ip := fun _ => 0 }

/-- A concrete Wi-Fi environment whose cy_wcm_init fails with
code 11. -/
def sampleWifiEnvInitFail : WifiEnv :=
  { wcm_init_result := 11,
    connect_ap_result := fun _ => CY_RSLT_SUCCESS,
    assigned_ip := fun _ => 0 }

lemma find_eq_specFirstMatch (name : List Char) (l : List OlDesc) :
    find_my_tko_descriptor name l = specFirstMatch name l := by
  induction l with
  | nil => rfl
  | cons d rest ih =>
    cases hd : d.name with
    | none =>
      simp [find_my_tko_descriptor, specFirstMatch, List.takeWhile, hd]
    | some nm =>
      by_cases hp : name.isPrefixOf nm
      · simp [find_my_tko_descriptor, specFirstMatch, List.takeWhile, hd, hp,
          specDescMatches]
      · simp only [find_my_tko_descriptor, hd, hp, if_false]
        rw [ih]
        simp [specFirstMatch, List.takeWhile, hd, specDescMatches, hp]

lemma find_ignores_after_sentinel (name : List Char) (d : OlDesc)
    (hd : d.name = none) :
    ∀ l₁ l₂ l₂' : List OlDesc,
      find_my_tko_descriptor name (l₁ ++ d :: l₂)
        = find_my_tko_descriptor name (l₁ ++ d :: l₂') := by
  intro l₁
  induction l₁ with
  | nil => intro l₂ l₂'; simp [find_my_tko_descriptor, hd]
  | cons e r ih =>
    intro l₂ l₂'
    cases he : e.name with
    | none => simp [find_my_tko_descriptor, he]
    | some nm =>
      by_cases hp : name.isPrefixOf nm
      · simp [find_my_tko_descriptor, he, hp]
      · simp only [List.cons_append, find_my_tko_descriptor, he, hp, if_false]
        exact ih l₂ l₂'

/-- C3: for every null-terminated descriptor list and every search
name, find_my_tko_descriptor scans in order and returns the first
descriptor before the terminating sentinel whose name has the search
name as a prefix (so a proper prefix of a longer stored name also
matches), and returns none when the list is empty, no descriptor
matches, or the sentinel is reached first; moreover it never reads
past the sentinel: entries after a NULL-name entry do not influence
the result. -/
theorem find_my_tko_descriptor_first_prefix_match :
    (∀ (name : List Char) (l : List OlDesc),
       find_my_tko_descriptor name l
         = (l.takeWhile (fun d => d.name.isSome)).find? (specDescMatches name))
    ∧ (∀ (name : List Char) (d : OlDesc) (l₁ l₂ l₂' : List OlDesc),
         d.name = none →
         find_my_tko_descriptor name (l₁ ++ d :: l₂)
           = find_my_tko_descriptor name (l₁ ++ d :: l₂')) := by
  constructor
  · intro name l
    exact find_eq_specFirstMatch name l
  · intro name d l₁ l₂ l₂' hd
    exact find_ignores_after_sentinel name d hd l₁ l₂ l₂'

/-- C3 witness: on a concrete list whose second entry's stored name
has the search name "TKO" as a proper prefix, the lookup returns that
second entry (the first match), and garbage after the sentinel does
not change the not-found result for an absent name. -/
theorem find_my_tko_descriptor_first_prefix_match_witness :
    find_my_tko_descriptor TCP_KEEPALIVE_OFFLOAD
        [OlDesc.mk (some (String.toList "ARP")) none,
         OlDesc.mk (some (String.toList "TKOX")) none,
         OlDesc.mk none none]
      = ([OlDesc.mk (some (String.toList "ARP")) none,
          OlDesc.mk (some (String.toList "TKOX")) none,
          OlDesc.mk none none].takeWhile
            (fun d => d.name.isSome)).find? (specDescMatches TCP_KEEPALIVE_OFFLOAD)
    ∧ find_my_tko_descriptor TCP_KEEPALIVE_OFFLOAD
        [OlDesc.mk (some (String.toList "ARP")) none, OlDesc.mk none none,
         OlDesc.mk (some (String.toList "TKO")) none]
      = find_my_tko_descriptor TCP_KEEPALIVE_OFFLOAD
        [OlDesc.mk (some (String.toList "ARP")) none, OlDesc.mk none none] := by
  constructor
  · exact find_my_tko_descriptor_first_prefix_match.1 TCP_KEEPALIVE_OFFLOAD
      [OlDesc.mk (some (String.toList "ARP")) none,
       OlDesc.mk (some (String.toList "TKOX")) none,
       OlDesc.mk none none]
  · exact find_my_tko_descriptor_first_prefix_match.2 TCP_KEEPALIVE_OFFLOAD
      (OlDesc.mk none none)
      [OlDesc.mk (some (String.toList "ARP")) none]
      [OlDesc.mk (some (String.toList "TKO")) none] [] rfl

/-- C9: descriptor lookup is a pure function of its inputs: running
it twice with the same search name against the same registry yields
the same result, and neither call changes the registry state. -/
theorem find_my_tko_descriptor_idempotent (name : List Char) (w : OlRegistry) :
    (find_my_tko_descriptor_call name
        (find_my_tko_descriptor_call name w).2).1
      = (find_my_tko_descriptor_call name w).1
    ∧ (find_my_tko_descriptor_call name w).2 = w
    ∧ (find_my_tko_descriptor_call name
        (find_my_tko_descriptor_call name w).2).2 = w :=
  ⟨rfl, rfl, rfl⟩

lemma connStep_fst (env : SocketEnv) (cfg : CyTkoOlCfg)
    (st : CyRslt × (Nat → Option SocketHandle) × List Nat) (index : Nat) :
    (connStep env cfg st index).1
      = if portActive (cfg.ports index) = true then
          (if env.connect_result index = CY_RSLT_SUCCESS then st.1
           else env.connect_result index)
        else st.1 := by
  simp only [connStep]
  by_cases ha : portActive (cfg.ports index) = true
  · by_cases hr : env.connect_result index = CY_RSLT_SUCCESS
    · simp [ha, hr]
    · simp [ha, hr]
  · simp [ha]

lemma connStep_attempts_eq (env : SocketEnv) (cfg : CyTkoOlCfg)
    (st : CyRslt × (Nat → Option SocketHandle) × List Nat) (index : Nat) :
    (connStep env cfg st index).2.2
      = if portActive (cfg.ports index) = true then st.2.2 ++ [index]
        else st.2.2 := by
  simp only [connStep]
  by_cases ha : portActive (cfg.ports index) = true
  · by_cases hr : env.connect_result index = CY_RSLT_SUCCESS
    · simp [ha, hr]
    · simp [ha, hr]
  · simp [ha]

lemma connLoop_succ (env : SocketEnv) (cfg : CyTkoOlCfg)
    (t0 : Nat → Option SocketHandle) (n : Nat) :
    (List.range (n + 1)).foldl (connStep env cfg) (CY_RSLT_SUCCESS, t0, [])
      = connStep env cfg
          ((List.range n).foldl (connStep env cfg) (CY_RSLT_SUCCESS, t0, [])) n := by
  rw [List.range_succ, List.foldl_append, List.foldl_cons, List.foldl_nil]

lemma connLoop_status_success_iff (env : SocketEnv) (cfg : CyTkoOlCfg)
    (t0 : Nat → Option SocketHandle) :
    ∀ n : Nat,
      ((List.range n).foldl (connStep env cfg) (CY_RSLT_SUCCESS, t0, [])).1
          = CY_RSLT_SUCCESS
        ↔ ∀ i, i < n → portActive (cfg.ports i) = true →
            env.connect_result i = CY_RSLT_SUCCESS := by
  intro n
  induction n with
  | zero => simp
  | succ n ih =>
    rw [connLoop_succ, connStep_fst]
    by_cases ha : portActive (cfg.ports n) = true
    · by_cases hr : env.connect_result n = CY_RSLT_SUCCESS
      · rw [if_pos ha, if_pos hr, ih]
        constructor
        · intro h i hi hact
          rcases Nat.lt_succ_iff_lt_or_eq.mp hi with hi' | hi'
          · exact h i hi' hact
          · subst hi'; exact hr
        · intro h i hi hact
          exact h i (Nat.lt_succ_of_lt hi) hact
      · rw [if_pos ha, if_neg hr]
        constructor
        · intro h; exact absurd h hr
        · intro h; exact h n (Nat.lt_succ_self n) ha
    · rw [if_neg ha, ih]
      constructor
      · intro h i hi hact
        rcases Nat.lt_succ_iff_lt_or_eq.mp hi with hi' | hi'
        · exact h i hi' hact
        · subst hi'; exact absurd hact ha
      · intro h i hi hact
        exact h i (Nat.lt_succ_of_lt hi) hact

lemma connLoop_status_last_error (env : SocketEnv) (cfg : CyTkoOlCfg)
    (t0 : Nat → Option SocketHandle) :
    ∀ n : Nat,
      (∃ i, i < n ∧ portActive (cfg.ports i) = true ∧
          env.connect_result i ≠ CY_RSLT_SUCCESS) →
      ∃ i, i < n ∧ portActive (cfg.ports i) = true ∧
        env.connect_result i ≠ CY_RSLT_SUCCESS ∧
        ((List.range n).foldl (connStep env cfg) (CY_RSLT_SUCCESS, t0, [])).1
          = env.connect_result i ∧
        ∀ j, i < j → j < n → portActive (cfg.ports j) = true →
          env.connect_result j = CY_RSLT_SUCCESS := by
  intro n
  induction n with
  | zero => rintro ⟨i, hi, -, -⟩; exact absurd hi (Nat.not_lt_zero i)
  | succ n ih =>
    intro hex
    rw [connLoop_succ, connStep_fst]
    by_cases ha : portActive (cfg.ports n) = true
    · by_cases hr : env.connect_result n = CY_RSLT_SUCCESS
      · rw [if_pos ha, if_pos hr]
        have hex' : ∃ i, i < n ∧ portActive (cfg.ports i) = true ∧
            env.connect_result i ≠ CY_RSLT_SUCCESS := by
          rcases hex with ⟨i, hi, hact, hfail⟩
          rcases Nat.lt_succ_iff_lt_or_eq.mp hi with hi' | hi'
          · exact ⟨i, hi', hact, hfail⟩
          · subst hi'; exact absurd hr hfail
        rcases ih hex' with ⟨i, hi, hact, hfail, hst, hlast⟩
        refine ⟨i, Nat.lt_succ_of_lt hi, hact, hfail, hst, ?_⟩
        intro j hij hj hactj
        rcases Nat.lt_succ_iff_lt_or_eq.mp hj with hj' | hj'
        · exact hlast j hij hj' hactj
        · subst hj'; exact hr
      · rw [if_pos ha, if_neg hr]
        refine ⟨n, Nat.lt_succ_self n, ha, hr, rfl, ?_⟩
        intro j hij hj _
        exact absurd hj (Nat.not_lt.mpr hij)
    · rw [if_neg ha]
      have hex' : ∃ i, i < n ∧ portActive (cfg.ports i) = true ∧
          env.connect_result i ≠ CY_RSLT_SUCCESS := by
        rcases hex with ⟨i, hi, hact, hfail⟩
        rcases Nat.lt_succ_iff_lt_or_eq.mp hi with hi' | hi'
        · exact ⟨i, hi', hact, hfail⟩
        · subst hi'; exact absurd hact ha
      rcases ih hex' with ⟨i, hi, hact, hfail, hst, hlast⟩
      refine ⟨i, Nat.lt_succ_of_lt hi, hact, hfail, hst, ?_⟩
      intro j hij hj hactj
      rcases Nat.lt_succ_iff_lt_or_eq.mp hj with hj' | hj'
      · exact hlast j hij hj' hactj
      · subst hj'; exact absurd hactj ha

lemma connLoop_attempts (env : SocketEnv) (cfg : CyTkoOlCfg)
    (t0 : Nat → Option SocketHandle) :
    ∀ n : Nat,
      ((List.range n).foldl (connStep env cfg) (CY_RSLT_SUCCESS, t0, [])).2.2
        = (List.range n).filter (fun i => portActive (cfg.ports i)) := by
  intro n
  induction n with
  | zero => simp
  | succ n ih =>
    rw [connLoop_succ, connStep_attempts_eq, List.range_succ,
      List.filter_append, ih]
    by_cases ha : portActive (cfg.ports n) = true
    · rw [if_pos ha]
      simp [List.filter, ha]
    · rw [if_neg ha]
      simp only [Bool.not_eq_true] at ha
      simp [List.filter, ha]

lemma tcp_start_unfold (env : SocketEnv) (maxTko : Nat)
    (t0 : Nat → Option SocketHandle) (desc : OlDesc) (cfg : CyTkoOlCfg)
    (hinit : env.socket_init_result = CY_RSLT_SUCCESS)
    (hfind : find_my_tko_descriptor TCP_KEEPALIVE_OFFLOAD env.ol_list
               = some desc)
    (hcfg : desc.cfg = some cfg) :
    tcp_socket_connection_start env maxTko t0
      = { outcome := TcpOutcome.returns
            (((List.range maxTko).foldl (connStep env cfg)
               (CY_RSLT_SUCCESS, t0, [])).1),
          table := ((List.range maxTko).foldl (connStep env cfg)
            (CY_RSLT_SUCCESS, t0, [])).2.1,
          lookups := 1,
          attempts := ((List.range maxTko).foldl (connStep env cfg)
            (CY_RSLT_SUCCESS, t0, [])).2.2 } := by
  unfold tcp_socket_connection_start
  rw [if_pos hinit, hfind]
  show (match desc.cfg with
    | none =>
      ({ outcome := TcpOutcome.returns CY_RSLT_TYPE_ERROR, table := t0,
         lookups := 1, attempts := [] } : TcpStartResult)
    | some cfg =>
      let st := (List.range maxTko).foldl (connStep env cfg)
        (CY_RSLT_SUCCESS, t0, [])
      { outcome := TcpOutcome.returns st.1, table := st.2.1,
        lookups := 1, attempts := st.2.2 }) = _
  rw [hcfg]

/-- C1: when socket init succeeds and the TKO descriptor with its
policy blob is found, tcp_socket_connection_start returns SUCCESS iff
the connect attempt of every active binding succeeded (vacuously so
with zero active bindings); otherwise it returns the per-slot error
observed last: the failing active slot it reflects is followed only
by slots that are inactive or whose connect succeeded, so a later
success never overwrites a recorded failure. -/
theorem tcp_socket_connection_start_return_contract (env : SocketEnv)
    (maxTko : Nat) (t0 : Nat → Option SocketHandle) (desc : OlDesc)
    (cfg : CyTkoOlCfg)
    (hinit : env.socket_init_result = CY_RSLT_SUCCESS)
    (hfind : find_my_tko_descriptor TCP_KEEPALIVE_OFFLOAD env.ol_list
               = some desc)
    (hcfg : desc.cfg = some cfg) :
    ((tcp_socket_connection_start env maxTko t0).outcome
        = TcpOutcome.returns CY_RSLT_SUCCESS
      ↔ ∀ i, i < maxTko → portActive (cfg.ports i) = true →
          env.connect_result i = CY_RSLT_SUCCESS)
    ∧ (¬ (∀ i, i < maxTko → portActive (cfg.ports i) = true →
            env.connect_result i = CY_RSLT_SUCCESS) →
       ∃ i, i < maxTko ∧ portActive (cfg.ports i) = true ∧
         env.connect_result i ≠ CY_RSLT_SUCCESS ∧
         (tcp_socket_connection_start env maxTko t0).outcome
           = TcpOutcome.returns (env.connect_result i) ∧
         ∀ j, i < j → j < maxTko → portActive (cfg.ports j) = true →
           env.connect_result j = CY_RSLT_SUCCESS) := by
  rw [tcp_start_unfold env maxTko t0 desc cfg hinit hfind hcfg]
  simp only [TcpOutcome.returns.injEq]
  constructor
  · exact connLoop_status_success_iff env cfg t0 maxTko
  · intro hnot
    push_neg at hnot
    rcases hnot with ⟨i, hi, hact, hfail⟩
    exact connLoop_status_last_error env cfg t0 maxTko ⟨i, hi, hact, hfail⟩

/-- C2: under the same preconditions, the establisher loop visits the
slots in fixed index order 0..MAX_TKO-1 and calls the connect helper
exactly at the active slots (so exactly N connects for N active
bindings, in ascending order, independent of any per-slot failures),
skipping the remaining M inactive slots with N + M = MAX_TKO. -/
theorem tcp_socket_connection_start_iterates_active_slots (env : SocketEnv)
    (maxTko : Nat) (t0 : Nat → Option SocketHandle) (desc : OlDesc)
    (cfg : CyTkoOlCfg)
    (hinit : env.socket_init_result = CY_RSLT_SUCCESS)
    (hfind : find_my_tko_descriptor TCP_KEEPALIVE_OFFLOAD env.ol_list
               = some desc)
    (hcfg : desc.cfg = some cfg) :
    (tcp_socket_connection_start env maxTko t0).attempts
        = (List.range maxTko).filter (fun i => portActive (cfg.ports i))
    ∧ (tcp_socket_connection_start env maxTko t0).attempts.length
        + ((List.range maxTko).filter
            (fun i => !portActive (cfg.ports i))).length
        = maxTko := by
  rw [tcp_start_unfold env maxTko t0 desc cfg hinit hfind hcfg]
  simp only []
  constructor
  · exact connLoop_attempts env cfg t0 maxTko
  · rw [connLoop_attempts env cfg t0 maxTko]
    have h := List.length_eq_length_filter_add
      (l := List.range maxTko) (fun i => portActive (cfg.ports i))
    rw [List.length_range] at h
    exact h.symm

/-- C4: when socket init succeeds but the TKO descriptor is not found
or its policy blob is NULL, tcp_socket_connection_start returns the
typed configuration-missing error CY_RSLT_TYPE_ERROR after a single
descriptor lookup, performs no connect attempt, and leaves every slot
of the global socket table exactly as it was. -/
theorem tcp_socket_connection_start_config_missing (env : SocketEnv)
    (maxTko : Nat) (t0 : Nat → Option SocketHandle)
    (hinit : env.socket_init_result = CY_RSLT_SUCCESS)
    (hmiss : find_my_tko_descriptor TCP_KEEPALIVE_OFFLOAD env.ol_list = none
      ∨ ∃ desc, find_my_tko_descriptor TCP_KEEPALIVE_OFFLOAD env.ol_list
            = some desc ∧ desc.cfg = none) :
    tcp_socket_connection_start env maxTko t0
      = { outcome := TcpOutcome.returns CY_RSLT_TYPE_ERROR, table := t0,
          lookups := 1, attempts := [] } := by
  rcases hmiss with hnone | ⟨desc, hfind, hcfg⟩
  · unfold tcp_socket_connection_start
    rw [if_pos hinit, hnone]
  · unfold tcp_socket_connection_start
    rw [if_pos hinit, hfind]
    show (match desc.cfg with
      | none =>
        ({ outcome := TcpOutcome.returns CY_RSLT_TYPE_ERROR, table := t0,
           lookups := 1, attempts := [] } : TcpStartResult)
      | some cfg =>
        let st := (List.range maxTko).foldl (connStep env cfg)
          (CY_RSLT_SUCCESS, t0, [])
        { outcome := TcpOutcome.returns st.1, table := st.2.1,
          lookups := 1, attempts := st.2.2 }) = _
    rw [hcfg]

/-- C7: when cy_socket_init fails, tcp_socket_connection_start aborts
fatally: no descriptor lookup is performed, no connect attempt is
made, the socket table is untouched, and nothing is retried. -/
theorem tcp_socket_connection_start_fatal_on_init_failure (env : SocketEnv)
    (maxTko : Nat) (t0 : Nat → Option SocketHandle)
    (hinit : env.socket_init_result ≠ CY_RSLT_SUCCESS) :
    tcp_socket_connection_start env maxTko t0
      = { outcome := TcpOutcome.fatalAbort, table := t0, lookups := 0,
          attempts := [] } := by
  unfold tcp_socket_connection_start
  rw [if_neg hinit]

lemma wifiRetryLoop_unfold (env : WifiEnv) (maxRetry k : Nat) (result : CyRslt) :
    wifiRetryLoop env maxRetry k result
      = if k < maxRetry then
          (if env.connect_ap_result k = CY_RSLT_SUCCESS then
             (env.connect_ap_result k, k + 1, some (env.assigned_ip k))
           else wifiRetryLoop env maxRetry (k + 1) (env.connect_ap_result k))
        else (result, k, none) := by
  rw [wifiRetryLoop]

lemma wifiRetryLoop_success (env : WifiEnv) (maxRetry s : Nat)
    (hs : s < maxRetry) (hsucc : env.connect_ap_result s = CY_RSLT_SUCCESS) :
    ∀ d k result, k ≤ s → s - k = d →
      (∀ j, k ≤ j → j < s → env.connect_ap_result j ≠ CY_RSLT_SUCCESS) →
      wifiRetryLoop env maxRetry k result
        = (CY_RSLT_SUCCESS, s + 1, some (env.assigned_ip s)) := by
  intro d
  induction d with
  | zero =>
    intro k result hk hd _
    have hks : k = s := by omega
    subst hks
    rw [wifiRetryLoop_unfold, if_pos hs, if_pos hsucc, hsucc]
  | succ d ih =>
    intro k result hk hd hf
    have hks : k < s := by omega
    have hfk : env.connect_ap_result k ≠ CY_RSLT_SUCCESS :=
      hf k (Nat.le_refl k) hks
    rw [wifiRetryLoop_unfold, if_pos (Nat.lt_trans hks hs), if_neg hfk]
    exact ih (k + 1) (env.connect_ap_result k) (by omega) (by omega)
      (fun j hj1 hj2 => hf j (by omega) hj2)

lemma wifiRetryLoop_all_fail (env : WifiEnv) (maxRetry : Nat)
    (hfail : ∀ j, j < maxRetry → env.connect_ap_result j ≠ CY_RSLT_SUCCESS) :
    ∀ d k result, k ≤ maxRetry → maxRetry - k = d →
      wifiRetryLoop env maxRetry k result
        = ((if k < maxRetry then env.connect_ap_result (maxRetry - 1)
            else result), maxRetry, none) := by
  intro d
  induction d with
  | zero =>
    intro k result hk hd
    have hkm : k = maxRetry := by omega
    subst hkm
    rw [wifiRetryLoop_unfold, if_neg (Nat.lt_irrefl k), if_neg (Nat.lt_irrefl k)]
  | succ d ih =>
    intro k result hk hd
    have hkm : k < maxRetry := by omega
    have hfk : env.connect_ap_result k ≠ CY_RSLT_SUCCESS := hfail k hkm
    rw [wifiRetryLoop_unfold, if_pos hkm, if_neg hfk,
      ih (k + 1) (env.connect_ap_result k) (by omega) (by omega),
      if_pos hkm]
    rcases Nat.lt_or_ge (k + 1) maxRetry with h1 | h1
    · rw [if_pos h1]
    · rw [if_neg (Nat.not_lt.mpr h1)]
      have hlast : maxRetry - 1 = k := by omega
      rw [hlast]

lemma wifi_connect_init_ok_eq (env : WifiEnv) (maxRetry : Nat)
    (hinit : env.wcm_init_result = CY_RSLT_SUCCESS) :
    wifi_connect env maxRetry
      = { status := (wifiRetryLoop env maxRetry 0 env.wcm_init_result).1,
          attempts := (wifiRetryLoop env maxRetry 0 env.wcm_init_result).2.1,
          recorded_ip :=
            (wifiRetryLoop env maxRetry 0 env.wcm_init_result).2.2 } := by
  simp only [wifi_connect]
  rw [if_pos hinit]

lemma wifi_connect_init_fail_eq (env : WifiEnv) (maxRetry : Nat)
    (hinit : env.wcm_init_result ≠ CY_RSLT_SUCCESS) :
    wifi_connect env maxRetry
      = { status := env.wcm_init_result, attempts := 0,
          recorded_ip := none } := by
  simp only [wifi_connect]
  rw [if_neg hinit]

/-- C5: with a successful cy_wcm_init, if attempts 1..K-1 fail and
attempt K succeeds (1 ≤ K ≤ MAX_WIFI_RETRY_COUNT) then wifi_connect
performs exactly K back-to-back cy_wcm_connect_ap calls, records the
address assigned by the successful attempt, and returns SUCCESS; if
every attempt fails it performs exactly MAX_WIFI_RETRY_COUNT calls
and returns the failure status of the last one. -/
theorem wifi_connect_retry_contract (env : WifiEnv) (maxRetry : Nat)
    (hinit : env.wcm_init_result = CY_RSLT_SUCCESS) :
    (∀ K, 1 ≤ K → K ≤ maxRetry →
       (∀ j, j < K - 1 → env.connect_ap_result j ≠ CY_RSLT_SUCCESS) →
       env.connect_ap_result (K - 1) = CY_RSLT_SUCCESS →
       wifi_connect env maxRetry
         = { status := CY_RSLT_SUCCESS, attempts := K,
             recorded_ip := some (env.assigned_ip (K - 1)) })
    ∧ ((∀ j, j < maxRetry → env.connect_ap_result j ≠ CY_RSLT_SUCCESS) →
       1 ≤ maxRetry →
       wifi_connect env maxRetry
         = { status := env.connect_ap_result (maxRetry - 1),
             attempts := maxRetry, recorded_ip := none }) := by
  constructor
  · intro K hK1 hK2 hf hsucc
    rw [wifi_connect_init_ok_eq env maxRetry hinit,
      wifiRetryLoop_success env maxRetry (K - 1) (by omega) hsucc
        (K - 1) 0 env.wcm_init_result (by omega) (by omega)
        (fun j _ hj2 => hf j hj2)]
    have hK : K - 1 + 1 = K := by omega
    rw [hK]
  · intro hfail hone
    rw [wifi_connect_init_ok_eq env maxRetry hinit,
      wifiRetryLoop_all_fail env maxRetry hfail maxRetry 0
        env.wcm_init_result (by omega) (by omega),
      if_pos (by omega : 0 < maxRetry)]

/-- C8: when cy_wcm_init fails, wifi_connect returns that failure
status unchanged and performs zero cy_wcm_connect_ap calls. -/
theorem wifi_connect_init_failure_no_attempt (env : WifiEnv) (maxRetry : Nat)
    (hinit : env.wcm_init_result ≠ CY_RSLT_SUCCESS) :
    wifi_connect env maxRetry
      = { status := env.wcm_init_result, attempts := 0,
          recorded_ip := none } :=
  wifi_connect_init_fail_eq env maxRetry hinit

/-- C10: with retry bound MAX_WIFI_RETRY_COUNT = 0, wifi_connect
performs no association attempt at all, records no address, and
returns the cy_wcm_init status unchanged — in particular SUCCESS
after a successful init even though the device never associated. -/
theorem wifi_connect_zero_retry_bound (env : WifiEnv) :
    (wifi_connect env 0).attempts = 0
    ∧ (wifi_connect env 0).status = env.wcm_init_result
    ∧ (wifi_connect env 0).recorded_ip = none := by
  by_cases hinit : env.wcm_init_result = CY_RSLT_SUCCESS
  · rw [wifi_connect_init_ok_eq env 0 hinit,
      wifiRetryLoop_unfold, if_neg (Nat.lt_irrefl 0)]
    exact ⟨rfl, rfl, rfl⟩
  · rw [wifi_connect_init_fail_eq env 0 hinit]
    exact ⟨rfl, rfl, rfl⟩

lemma idlePhaseAt_pattern (p : IdleParams) :
    ∀ n, idlePhaseAt p (2 * n) = IdlePhase.suspendWaiting
      ∧ idlePhaseAt p (2 * n + 1) = IdlePhase.settling := by
  intro n
  induction n with
  | zero => exact ⟨rfl, rfl⟩
  | succ n ih =>
    have e1 : 2 * (n + 1) = (2 * n + 1) + 1 := by ring
    have h1 : idlePhaseAt p ((2 * n + 1) + 1) = IdlePhase.suspendWaiting := by
      show (networkIdleStep p (idlePhaseAt p (2 * n + 1))).1 = _
      rw [ih.2]
      rfl
    constructor
    · rw [e1]; exact h1
    · have e2 : 2 * (n + 1) + 1 = ((2 * n + 1) + 1) + 1 := by ring
      rw [e2]
      show (networkIdleStep p (idlePhaseAt p ((2 * n + 1) + 1))).1 = _
      rw [h1]
      rfl

/-- C6: network_idle_task never leaves its loop: for every iteration
n it first performs the blocking wait_net_suspend call, forwarding
portMAX_DELAY and the inactivity interval and window unchanged, then
performs the fixed settle vTaskDelay, and then is back at the
suspend-waiting point, re-entering the suspend call; the step
function is total on its two phases, so there is no terminal state
and no exit path. -/
theorem network_idle_task_runs_forever (p : IdleParams) (n : Nat) :
    idleEventAt p (2 * n)
        = IdleEvent.waitNetSuspend portMAX_DELAY p.inactive_interval_ms
            p.inactive_window_ms
    ∧ idleEventAt p (2 * n + 1) = IdleEvent.taskDelay p.suspend_delay_ms
    ∧ idlePhaseAt p (2 * n + 2) = IdlePhase.suspendWaiting := by
  have h := idlePhaseAt_pattern p n
  have h' := idlePhaseAt_pattern p (n + 1)
  refine ⟨?_, ?_, ?_⟩
  · unfold idleEventAt
    rw [h.1]
    rfl
  · unfold idleEventAt
    rw [h.2]
    rfl
  · have e : 2 * n + 2 = 2 * (n + 1) := by ring
    rw [e]
    exact h'.1

/-- C1 witness: in the concrete environment where slot 0 fails with
code 7, slot 1 is inactive and slot 2 succeeds, the return contract
holds at MAX_TKO = 3. -/
theorem tcp_socket_connection_start_return_contract_witness :
    ((tcp_socket_connection_start sampleSocketEnv 3 (fun _ => none)).outcome
        = TcpOutcome.returns CY_RSLT_SUCCESS
      ↔ ∀ i, i < 3 → portActive (sampleCfg.ports i) = true →
          sampleSocketEnv.connect_result i = CY_RSLT_SUCCESS)
    ∧ (¬ (∀ i, i < 3 → portActive (sampleCfg.ports i) = true →
            sampleSocketEnv.connect_result i = CY_RSLT_SUCCESS) →
       ∃ i, i < 3 ∧ portActive (sampleCfg.ports i) = true ∧
         sampleSocketEnv.connect_result i ≠ CY_RSLT_SUCCESS ∧
         (tcp_socket_connection_start sampleSocketEnv 3
             (fun _ => none)).outcome
           = TcpOutcome.returns (sampleSocketEnv.connect_result i) ∧
         ∀ j, i < j → j < 3 → portActive (sampleCfg.ports j) = true →
           sampleSocketEnv.connect_result j = CY_RSLT_SUCCESS) :=
  tcp_socket_connection_start_return_contract sampleSocketEnv 3 (fun _ => none)
    sampleDesc sampleCfg rfl rfl rfl

/-- C2 witness: in the same concrete environment, the attempted slot
indices are exactly the active slots of List.range 3 in order, and
attempted plus skipped slots account for all of MAX_TKO = 3. -/
theorem tcp_socket_connection_start_iterates_active_slots_witness :
    (tcp_socket_connection_start sampleSocketEnv 3 (fun _ => none)).attempts
        = (List.range 3).filter (fun i => portActive (sampleCfg.ports i))
    ∧ (tcp_socket_connection_start sampleSocketEnv 3
          (fun _ => none)).attempts.length
        + ((List.range 3).filter
            (fun i => !portActive (sampleCfg.ports i))).length
        = 3 :=
  tcp_socket_connection_start_iterates_active_slots sampleSocketEnv 3
    (fun _ => none) sampleDesc sampleCfg rfl rfl rfl

/-- C4 witness: with a descriptor list holding only an ARP entry and
the sentinel, tcp_socket_connection_start returns the typed
configuration-missing error and leaves the empty table empty. -/
theorem tcp_socket_connection_start_config_missing_witness :
    tcp_socket_connection_start sampleSocketEnvNoTko 3 (fun _ => none)
      = { outcome := TcpOutcome.returns CY_RSLT_TYPE_ERROR,
          table := fun _ => none, lookups := 1, attempts := [] } :=
  tcp_socket_connection_start_config_missing sampleSocketEnvNoTko 3
    (fun _ => none) rfl (Or.inl rfl)

/-- C7 witness: with cy_socket_init failing with code 1, the run
aborts fatally with zero lookups and zero connect attempts. -/
theorem tcp_socket_connection_start_fatal_on_init_failure_witness :
    tcp_socket_connection_start sampleSocketEnvInitFail 3 (fun _ => none)
      = { outcome := TcpOutcome.fatalAbort, table := fun _ => none,
          lookups := 0, attempts := [] } :=
  tcp_socket_connection_start_fatal_on_init_failure sampleSocketEnvInitFail 3
    (fun _ => none) (by decide)

/-- C5 witness: with a stub failing once then succeeding, the run
performs exactly 2 attempts, records address 42 and returns SUCCESS;
with an always-failing stub and bound 3 it performs exactly 3
attempts and returns the last failure code 5. -/
theorem wifi_connect_retry_contract_witness :
    wifi_connect sampleWifiEnvA 3
        = { status := CY_RSLT_SUCCESS, attempts := 2,
            recorded_ip := some 42 }
    ∧ wifi_connect sampleWifiEnvB 3
        = { status := 5, attempts := 3, recorded_ip := none } :=
  ⟨(wifi_connect_retry_contract sampleWifiEnvA 3 rfl).1 2 (by decide)
      (by decide)
      (fun j hj => by
        have hj0 : j = 0 := by omega
        subst hj0
        decide)
      rfl,
   (wifi_connect_retry_contract sampleWifiEnvB 3 rfl).2
      (fun j hj => by
        show j + 3 ≠ 0
        omega)
      (by decide)⟩

/-- C8 witness: with cy_wcm_init failing with code 11, wifi_connect
returns 11 and performs zero association attempts. -/
theorem wifi_connect_init_failure_no_attempt_witness :
    wifi_connect sampleWifiEnvInitFail 3
      = { status := 11, attempts := 0, recorded_ip := none } :=
  wifi_connect_init_failure_no_attempt sampleWifiEnvInitFail 3 (by decide)
